import Mathlib

/-!
# Verification of the Veritas evidence-acquisition and result-normalization pipeline

Shallow embedding of the core pipeline of `brain.py`:

* `clean_and_parse_json` (brain.py lines 93-103) together with an executable
  model of Python's `json.loads(text, strict=False)`;
* `extract_score_safely` (lines 105-116);
* `get_standardized_verdict` (lines 118-128);
* `extract_name_from_url` / `sanitize_product_name` (lines 142-165) and the
  final-name selection (lines 401-407);
* the bounded scrape-retry loop (lines 289-307);
* the primary-analysis / zombie-check / backup-deep-search selection
  (lines 309-369) and the history append / exception handling (lines 397-423).

Modelling conventions: Python strings are Lean `String`s (ASCII-faithful;
Unicode case/digit subtleties of `str.lower`/`str.isdigit`/`\d` are out of
scope for the inputs considered here).  JSON numbers are exact decimals
(`num` for ints, `fnum m e` meaning `m * 10 ^ e` for floats); Python float
rounding noise cannot change any clamped score result for integer inputs, as
`score / 5` never hits an exact half for an integer `score`.  Exceptions are
modelled with `Except Unit`; external collaborators (the scraper and the
generative model) are inputs: a stub `Nat → Option ScrapedData` for scraping
(`none` = the call raised or returned a falsy value, which `scrape_website`
turns into `None`) and `Except Unit String` values for the two
`generate_content` calls (`.error` = the call raised).
-/

set_option maxRecDepth 1000000

namespace Veritas

/-! ## JSON value model and a model of `json.loads(text, strict=False)` -/

/-- A parsed JSON value.  `fnum m e` is the exact decimal `m * 10 ^ e`
(produced when the literal has a fraction or exponent, as Python produces a
`float` there); `NaN`/`Infinity` extensions are not modelled. -/
inductive JVal where
  | null
  | bool (b : Bool)
  | num (n : Int)
  | fnum (mantissa : Int) (exp10 : Int)
  | str (s : String)
  | arr (elems : List JVal)
  | obj (fields : List (String × JVal))

/-- Python `dict` lookup on the association list produced by the decoder:
with duplicate keys the last occurrence wins, as in `dict` construction. -/
def lookupLast (k : String) : List (String × JVal) → Option JVal
  | [] => none
  | (k', v) :: rest =>
    match lookupLast k rest with
    | some v' => some v'
    | none => if k' = k then some v else none

def isDigitChar (c : Char) : Bool := '0' ≤ c && c ≤ '9'

def digitsVal (ds : List Char) : Nat :=
  ds.foldl (fun a c => a * 10 + (c.toNat - 48)) 0

def hexDigitVal (c : Char) : Option Nat :=
  if '0' ≤ c && c ≤ '9' then some (c.toNat - 48)
  else if 'a' ≤ c && c ≤ 'f' then some (c.toNat - 87)
  else if 'A' ≤ c && c ≤ 'F' then some (c.toNat - 55)
  else none

def listStartsWith : List Char → List Char → Bool
  | [], _ => true
  | _ :: _, [] => false
  | p :: ps, c :: cs => p == c && listStartsWith ps cs

/-- `containsSub pat hay`: does `pat` occur as a contiguous substring of
`hay`?  Model of Python's `pat in hay`. -/
def containsSub (pat : List Char) : List Char → Bool
  | [] => pat.isEmpty
  | c :: cs => listStartsWith pat (c :: cs) || containsSub pat cs

def strContainsSub (hay pat : String) : Bool :=
  containsSub pat.data hay.data

/-- Python `str.lower` (ASCII range). -/
def pyLower (s : String) : String := String.mk (s.data.map Char.toLower)

/-- JSON whitespace, as skipped by Python's decoder (` \t\n\r`). -/
def jws (c : Char) : Bool := c = ' ' || c = '\t' || c = '\n' || c = '\r'

def skipJWs (cs : List Char) : List Char := cs.dropWhile jws

/-- JSON string body after the opening quote.  `strict=False`: raw control
characters inside the string are accepted verbatim; the standard escapes
(and `\uXXXX`, sans surrogate pairing, which Lean `Char` cannot represent)
are processed; any other escape is an error. -/
def parseString1 : Nat → List Char → Option (List Char × List Char)
  | 0, _ => none
  | _, [] => none
  | fuel + 1, c :: cs =>
    if c = '"' then some ([], cs)
    else if c = '\\' then
      match cs with
      | [] => none
      | e :: cs2 =>
        let cont (ch : Char) (rest : List Char) : Option (List Char × List Char) :=
          match parseString1 fuel rest with
          | some (acc, r) => some (ch :: acc, r)
          | none => none
        match e with
        | '"' => cont '"' cs2
        | '\\' => cont '\\' cs2
        | '/' => cont '/' cs2
        | 'b' => cont (Char.ofNat 8) cs2
        | 'f' => cont (Char.ofNat 12) cs2
        | 'n' => cont '\n' cs2
        | 'r' => cont '\r' cs2
        | 't' => cont '\t' cs2
        | 'u' =>
          match cs2 with
          | h1 :: h2 :: h3 :: h4 :: cs3 =>
            match hexDigitVal h1, hexDigitVal h2, hexDigitVal h3, hexDigitVal h4 with
            | some a, some b, some c', some d =>
              cont (Char.ofNat (((a * 16 + b) * 16 + c') * 16 + d)) cs3
            | _, _, _, _ => none
          | _ => none
        | _ => none
    else
      match parseString1 fuel cs with
      | some (acc, r) => some (c :: acc, r)
      | none => none

/-- JSON number grammar (`-?(0|[1-9]\d*)(\.\d+)?([eE][+-]?\d+)?`); a bare
`.`/`e` tail with no digits is left unconsumed, as Python's `NUMBER_RE`
does.  Fraction/exponent produce `fnum`, otherwise `num`. -/
def parseNumber (cs : List Char) : Option (JVal × List Char) :=
  let (neg, cs1) :=
    match cs with
    | '-' :: r => (true, r)
    | _ => (false, cs)
  match cs1 with
  | [] => none
  | d :: rest1 =>
    if !isDigitChar d then none
    else
      let (ipart, cs2) :=
        if d = '0' then (['0'], rest1)
        else (cs1.takeWhile isDigitChar, cs1.dropWhile isDigitChar)
      let (fpart, cs3) :=
        match cs2 with
        | '.' :: r =>
          let fd := r.takeWhile isDigitChar
          if fd.isEmpty then (([] : List Char), cs2) else (fd, r.dropWhile isDigitChar)
        | _ => ([], cs2)
      let (epart, cs4) :=
        match cs3 with
        | e :: r =>
          if e = 'e' || e = 'E' then
            let (esign, r2) :=
              match r with
              | '+' :: rr => ((1 : Int), rr)
              | '-' :: rr => ((-1 : Int), rr)
              | _ => ((1 : Int), r)
            let ed := r2.takeWhile isDigitChar
            if ed.isEmpty then ((none : Option Int), cs3)
            else (some (esign * (digitsVal ed : Int)), r2.dropWhile isDigitChar)
          else (none, cs3)
        | _ => (none, cs3)
      let mag : Int := (digitsVal (ipart ++ fpart) : Int)
      let mant : Int := if neg then -mag else mag
      if fpart.isEmpty && epart = none then some (.num mant, cs4)
      else some (.fnum mant ((epart.getD 0) - (fpart.length : Int)), cs4)

mutual

def parseVal : Nat → List Char → Option (JVal × List Char)
  | 0, _ => none
  | fuel + 1, cs0 =>
    let cs := skipJWs cs0
    match cs with
    | '\x7b' :: r => parseObjBody fuel r
    | '[' :: r => parseArrBody fuel r
    | '"' :: r =>
      match parseString1 (fuel + 1) r with
      | some (chars, rest) => some (.str (String.mk chars), rest)
      | none => none
    | 't' :: 'r' :: 'u' :: 'e' :: r => some (.bool true, r)
    | 'f' :: 'a' :: 'l' :: 's' :: 'e' :: r => some (.bool false, r)
    | 'n' :: 'u' :: 'l' :: 'l' :: r => some (.null, r)
    | _ => parseNumber cs

def parseObjBody : Nat → List Char → Option (JVal × List Char)
  | 0, _ => none
  | fuel + 1, cs0 =>
    let cs := skipJWs cs0
    match cs with
    | '\x7d' :: r => some (.obj [], r)
    | _ =>
      match parseMembers fuel cs with
      | some (kvs, rest) => some (.obj kvs, rest)
      | none => none

def parseMembers : Nat → List Char → Option (List (String × JVal) × List Char)
  | 0, _ => none
  | fuel + 1, cs0 =>
    let cs := skipJWs cs0
    match cs with
    | '"' :: r =>
      match parseString1 (fuel + 1) r with
      | some (kchars, r2) =>
        match skipJWs r2 with
        | ':' :: r3 =>
          match parseVal fuel r3 with
          | some (v, r4) =>
            match skipJWs r4 with
            | ',' :: r5 =>
              match parseMembers fuel r5 with
              | some (restKvs, r6) => some ((String.mk kchars, v) :: restKvs, r6)
              | none => none
            | '\x7d' :: r5 => some ([(String.mk kchars, v)], r5)
            | _ => none
          | none => none
        | _ => none
      | none => none
    | _ => none

def parseArrBody : Nat → List Char → Option (JVal × List Char)
  | 0, _ => none
  | fuel + 1, cs0 =>
    let cs := skipJWs cs0
    match cs with
    | ']' :: r => some (.arr [], r)
    | _ =>
      match parseElems fuel cs with
      | some (vs, rest) => some (.arr vs, rest)
      | none => none

def parseElems : Nat → List Char → Option (List JVal × List Char)
  | 0, _ => none
  | fuel + 1, cs0 =>
    match parseVal fuel cs0 with
    | some (v, r) =>
      match skipJWs r with
      | ',' :: r2 =>
        match parseElems fuel r2 with
        | some (vs, r3) => some (v :: vs, r3)
        | none => none
      | ']' :: r2 => some ([v], r2)
      | _ => none
    | none => none

end

/-- Model of `json.loads(s, strict=False)`: one JSON value surrounded by
optional whitespace, else failure.  The fuel `2 * s.length + 8` dominates
the recursion depth: every unit of fuel spent is matched by at least one
consumed input character, except the single peek between an opener and its
first member, which costs one extra unit per nesting level. -/
def json_loads (s : String) : Option JVal :=
  match parseVal (2 * s.length + 8) s.data with
  | some (v, rest) => if (skipJWs rest).isEmpty then some v else none
  | none => none

/-! ## `clean_and_parse_json` (brain.py lines 93-103) -/

/-- Python regex `\s` over ASCII (also the default `str.strip` set). -/
def isReWs (c : Char) : Bool :=
  c = ' ' || c = '\t' || c = '\n' || c = '\r' || c = '\x0b' || c = '\x0c'

/-- Python `str.strip()` (ASCII whitespace). -/
def pyStrip (s : String) : String :=
  String.mk (((s.data.dropWhile isReWs).reverse.dropWhile isReWs).reverse)

/-- `re.sub(r'[\x00-\x1f\x7f]', ' ', s)`: replace each C0 control character
and DEL with a single space (brain.py line 99). -/
def scrub (s : String) : String :=
  String.mk (s.data.map (fun c => if c.toNat ≤ 31 || c.toNat = 127 then ' ' else c))

/-- Can the closing part `\s*` followed by three backticks match here? -/
def canClose : List Char → Bool
  | [] => false
  | c :: cs => listStartsWith "```".data (c :: cs) || (isReWs c && canClose cs)

/-- The lazy group `(.*?)`: shortest prefix whose cut point admits the
closing `\s*` + three backticks. -/
def takeGroup : List Char → Option (List Char)
  | [] => none
  | c :: cs =>
    if canClose (c :: cs) then some []
    else
      match takeGroup cs with
      | some g => some (c :: g)
      | none => none

def tryFenceAt (t : List Char) : Option (List Char) :=
  let rest := t.dropWhile isReWs
  if canClose rest then some [] else takeGroup rest

/-- Leftmost match of `` ```json\s*(.*?)\s*``` `` (DOTALL), returning
group 1: scan for a position starting with `` ```json `` whose remainder
completes the pattern (brain.py line 94). -/
def findFence : List Char → Option (List Char)
  | [] => none
  | c :: cs =>
    if listStartsWith "```json".data (c :: cs) then
      match tryFenceAt (cs.drop 6) with
      | some g => some g
      | none => findFence cs
    else findFence cs

def fencedJsonGroup (s : String) : Option String :=
  (findFence s.data).map String.mk

/-- `text = match.group(1) if match else response_text.strip()`
(brain.py line 95). -/
def select_text (response_text : String) : String :=
  match fencedJsonGroup response_text with
  | some g => g
  | none => pyStrip response_text

/-- brain.py lines 93-103.  Returns whatever `json.loads` produced (which
need not be an object), retrying once on the control-character-scrubbed
text, and the empty object if both decodes fail.  The Python body catches
the decode errors, so the function itself never raises. -/
def clean_and_parse_json (response_text : String) : JVal :=
  let text := select_text response_text
  match json_loads text with
  | some v => v
  | none =>
    match json_loads (scrub text) with
    | some v => v
    | none => JVal.obj []

/-! ## `extract_score_safely` (brain.py lines 105-116) -/

/-- `re.findall(r'\d+', s)[0]` as a number: first maximal digit run. -/
def firstDigitRun (s : String) : Option Nat :=
  let rest := s.data.dropWhile (fun c => !isDigitChar c)
  match rest with
  | [] => none
  | _ => some (digitsVal (rest.takeWhile isDigitChar))

/-- Python `int(x)` on an exact decimal: truncation toward zero. -/
def truncFnum (m e : Int) : Int :=
  if 0 ≤ e then m * (10 : Int) ^ e.toNat
  else Int.tdiv m ((10 : Int) ^ (-e).toNat)

/-- The `score` variable of `extract_score_safely` just before clamping
(brain.py lines 106-114): ints and floats via `int(raw)` (Python `bool` is
an `int`: `True` → 1, `False` → 0), strings via the first digit run,
35 otherwise. -/
def raw_score (fields : List (String × JVal)) : Int :=
  match lookupLast "score" fields with
  | some (.num n) => n
  | some (.fnum m e) => truncFnum m e
  | some (.bool b) => if b then 1 else 0
  | some (.str s) =>
    match firstDigitRun s with
    | some n => (n : Int)
    | none => 35
  | _ => 35

/-- Python `round(n / 5)` for an integer `n`: round to nearest; the
half-to-even tie rule never fires because `n / 5` has fractional part in
`{0, .2, .4, .6, .8}` for integer `n`. -/
def round5 (n : Int) : Int :=
  if n.emod 5 ≤ 2 then n.ediv 5 else n.ediv 5 + 1

/-- `max(0, min(100, 5 * round(score / 5)))` (brain.py line 116). -/
def extract_score_safely (fields : List (String × JVal)) : Int :=
  max 0 (min 100 (5 * round5 (raw_score fields)))

def get_standardized_verdict (score : Int) : String :=
  if score ≤ 25 then "⛔ CRITICAL WARNING: SCAM / FAKE"
  else if score ≤ 45 then "⚠️ HIGH RISK: LIKELY MISLEADING"
  else if score ≤ 65 then "⚠️ CAUTION: MEDIOCRE QUALITY"
  else if score ≤ 85 then "✅ GOOD: SAFE TO BUY"
  else "🌟 EXCELLENT: TOP TIER AUTHENTIC"

/-! ## `extract_name_from_url` and `sanitize_product_name`
(brain.py lines 142-165) -/

/-- Suffix of `cs` after the first occurrence of `pat`, if any. -/
def dropThroughSub (pat : List Char) : List Char → Option (List Char)
  | [] => if pat.isEmpty then some [] else none
  | c :: cs =>
    if listStartsWith pat (c :: cs) then some ((c :: cs).drop pat.length)
    else dropThroughSub pat cs

/-- `urlparse(url).path` for ordinary absolute URLs: drop `scheme://` and
the authority (up to the next `/`), stop at `?` or `#`; a URL without
`://` is treated as all-path.  (`;`-parameter splitting on the last
segment is not modelled.) -/
def urlPath (url : String) : String :=
  let cs := url.data
  let rest :=
    match dropThroughSub "://".data cs with
    | some r => r.dropWhile (fun c => c ≠ '/' && c ≠ '?' && c ≠ '#')
    | none => cs
  String.mk (rest.takeWhile (fun c => c ≠ '?' && c ≠ '#'))

/-- Python `str.isdigit` (ASCII): nonempty and all digits. -/
def pyIsDigit (s : String) : Bool :=
  !s.data.isEmpty && s.data.all isDigitChar

/-- Python `str.title` (ASCII): uppercase a letter after a non-letter,
lowercase a letter after a letter. -/
def pyTitle (s : String) : String :=
  String.mk (((s.data.foldl (fun (acc : List Char × Bool) c =>
    let c' := if c.isAlpha then (if acc.2 then c.toLower else c.toUpper) else c
    (c' :: acc.1, c.isAlpha)) ([], false)).1).reverse)

/-- Python `max(segments, key=len)`: first element of maximal length. -/
def maxByLen : List String → Option String
  | [] => none
  | x :: xs => some (xs.foldl (fun acc s => if s.length > acc.length then s else acc) x)

/-- Python `path.split('/')` at the character level (structural, so it
reduces definitionally). -/
def splitOnSlash : List Char → List (List Char)
  | [] => [[]]
  | c :: rest =>
    let r := splitOnSlash rest
    if c = '/' then [] :: r
    else
      match r with
      | g :: gs => (c :: g) :: gs
      | [] => [[c]]

/-- `if len(clean_name) > 3: return clean_name` (brain.py line 151): keep
the name only when longer than 3 characters. -/
def keepIfLong (cn : String) : Option String :=
  if cn.length > 3 then some cn else none

/-- `slug.replace('-', ' ').replace('_', ' ')` (single-character
replacements). -/
def dashesToSpaces (cs : List Char) : List Char :=
  cs.map (fun c => if c = '-' then ' ' else if c = '_' then ' ' else c)

/-- The slug branch of `extract_name_from_url` (brain.py lines 146-151):
nonempty non-numeric path segments, longest one, separators to spaces,
title case, 30-char truncation, kept only when longer than 3. -/
def slug_candidate (path : String) : Option String :=
  let segments := ((splitOnSlash path.data).map String.mk).filter
    (fun s => s != "" && !pyIsDigit s)
  match maxByLen segments with
  | some slug =>
    let cn := pyTitle (String.mk (dashesToSpaces slug.data))
    keepIfLong (if cn.length > 30 then cn.take 30 ++ "..." else cn)
  | none => none

/-- `re.search(r'/item/(\d+)\.html', url)` group 1.  Only the maximal digit
run can precede `.html`, so no backtracking is needed. -/
def aliMatchAt (cs : List Char) : Option String :=
  if listStartsWith "/item/".data cs then
    let rest := cs.drop 6
    let ds := rest.takeWhile isDigitChar
    if ds.isEmpty then none
    else if listStartsWith ".html".data (rest.drop ds.length) then some (String.mk ds)
    else none
  else none

def aliScan : List Char → Option String
  | [] => none
  | c :: cs =>
    match aliMatchAt (c :: cs) with
    | some s => some s
    | none => aliScan cs

def isUpperAlnum (c : Char) : Bool :=
  ('A' ≤ c && c ≤ 'Z') || ('0' ≤ c && c ≤ '9')

def amzCheck (rest : List Char) : Option String :=
  let c10 := rest.take 10
  if c10.length = 10 && c10.all isUpperAlnum then some (String.mk c10) else none

/-- `re.search(r'/(dp|gp/product)/([A-Z0-9]{10})', url)` group 2 at one
position: the two alternatives cannot both start here. -/
def amzMatchAt (cs : List Char) : Option String :=
  if listStartsWith "/dp/".data cs then amzCheck (cs.drop 4)
  else if listStartsWith "/gp/product/".data cs then amzCheck (cs.drop 12)
  else none

def amzScan : List Char → Option String
  | [] => none
  | c :: cs =>
    match amzMatchAt (c :: cs) with
    | some s => some s
    | none => amzScan cs

/-- The marketplace-pattern fallbacks of brain.py lines 154-158, reached
when the slug branch does not return. -/
def name_fallbacks (url : String) : String :=
  match aliScan url.data with
  | some idDigits => "AliExpress Item " ++ idDigits
  | none =>
    match amzScan url.data with
    | some code => "Amazon Item " ++ code
    | none => "Unidentified Item"

/-- `s.endswith(suffix)` via reversed character lists (structural). -/
def strEndsWith (s suffix : String) : Bool :=
  listStartsWith suffix.data.reverse s.data.reverse

/-- brain.py lines 144-145: `path = urlparse(url).path`, then strip a
trailing `.html`. -/
def html_stripped_path (url : String) : String :=
  let path0 := urlPath url
  if strEndsWith path0 ".html" then path0.dropRight 5 else path0

/-- Return the slug candidate if the slug branch produced one, else fall
through to the marketplace patterns. -/
def name_from_slug_or_fallback (url : String) : Option String → String
  | some cn => cn
  | none => name_fallbacks url

/-- brain.py lines 142-158.  The `try` around `urlparse` is not modelled
(the model never raises); `.html` stripping, slug branch, then the
AliExpress and Amazon patterns, then the sentinel. -/
def extract_name_from_url (url : String) : String :=
  name_from_slug_or_fallback url (slug_candidate (html_stripped_path url))

def bad_phrases : List String :=
  ["unable to", "cannot determine", "based on url", "placeholder",
   "unknown", "generic", "item", "product"]

/-- brain.py lines 160-165 for a string argument (`if not name` is the
empty check there). -/
def sanitize_product_name (name : String) : String :=
  if name = "" then "Unidentified Item"
  else if name.length > 40 then "Unidentified Item"
  else if bad_phrases.any (fun p => strContainsSub (pyLower name) p) then "Unidentified Item"
  else name

/-- The final-name selection of brain.py lines 401-407 on the link path
(where `fallback_name` is always in scope): `resolve_name ai_name url`. -/
def resolve_name (ai_name url : String) : String :=
  let fallback_name := extract_name_from_url url
  let clean_name := sanitize_product_name ai_name
  if clean_name = "Unidentified Item" ∧ fallback_name ≠ "Unidentified Item" then fallback_name
  else clean_name

/-! ## The scrape-retry loop (brain.py lines 289-307) -/

/-- `len(cs) < n`, computed without materializing the length (walks at most
`n` characters, and evaluates iteratively).  `shorterThan_eq` relates it to
`List.length`. -/
def shorterThan : Nat → List Char → Bool
  | 0, _ => false
  | _ + 1, [] => true
  | n + 1, _ :: cs => shorterThan n cs

/-- The trap list of brain.py line 300. -/
def block_indicators : List String := ["captcha", "robot check", "login", "access denied"]

/-- `any(x in content_str for x in [...])` (brain.py line 300); the
argument is the already-lowercased content. -/
def is_trap (content_str : String) : Bool :=
  block_indicators.any (fun x => strContainsSub content_str x)

/-- The response classification implied by lines 297-300: content counts as
blocked when it is shorter than 500 characters (`len(content_str) < 500`,
modelled by `shorterThan`) or contains a trap phrase (checks are made on
the lowercased text). -/
def is_blocked_content (content : String) : Bool :=
  shorterThan 500 (pyLower content).data || is_trap (pyLower content)

/-- A successful scrape result: the markdown text plus the `og:image`
metadata hint (brain.py lines 295, 311-312). -/
structure ScrapedData where
  markdown : String
  ogImage : Option String

/-- Outcome of the retry loop: the `scrape_error` flag, the last
`scraped_data`, the last assigned `content`, the number of scrape calls
made, and the number of `time.sleep(1)` backoffs taken. -/
structure AcqResult where
  scrape_error : Bool
  data : Option ScrapedData
  content : String
  attempts : Nat
  sleeps : Nat

def MAX_RETRIES : Nat := 3

/-- One `for attempt in range(MAX_RETRIES)` body per list element
(brain.py lines 291-307): a `none` scrape (raised or falsy) just consumes
the attempt; short content sets the error flag and breaks; trap-free
content clears the flag and breaks; trapped content sleeps 1s and
retries. -/
def acquire_go (stub : Nat → Option ScrapedData) :
    List Nat → Nat → Nat → Bool → Option ScrapedData → String → AcqResult
  | [], att, sl, err, dat, cont => ⟨err, dat, cont, att, sl⟩
  | i :: rest, att, sl, err, _, cont =>
    match stub i with
    | none => acquire_go stub rest (att + 1) sl err none cont
    | some d =>
      let cs := pyLower d.markdown
      if shorterThan 500 cs.data then ⟨true, some d, d.markdown, att + 1, sl⟩
      else if !is_trap cs then ⟨false, some d, d.markdown, att + 1, sl⟩
      else acquire_go stub rest (att + 1) (sl + 1) err (some d) d.markdown

/-- The loop with its initial state: `scrape_error = True`,
`scraped_data = None`, `content = ""` (brain.py lines 285-291). -/
def acquire_loop (stub : Nat → Option ScrapedData) : AcqResult :=
  acquire_go stub (List.range MAX_RETRIES) 0 0 true none ""

/-! ## Primary analysis, zombie check, backup deep search
(brain.py lines 309-369) -/

/-- `temp_result.get("product_name") in ["Unknown", "Generic"]`
(brain.py line 336): only a string value can compare equal. -/
def nameIsJunk : Option JVal → Bool
  | some (.str s) => s == "Unknown" || s == "Generic"
  | _ => false

/-- The zombie-check condition of brain.py line 336. -/
def isZombie (kvs : List (String × JVal)) : Bool :=
  nameIsJunk (lookupLast "product_name" kvs) || extract_score_safely kvs == 35

/-- Python truthiness of a parsed JSON value (for `not result`,
brain.py line 342). -/
def jvalFalsy : JVal → Bool
  | .null => true
  | .bool b => !b
  | .num n => n == 0
  | .fnum m _ => m == 0
  | .str s => s == ""
  | .arr xs => xs.isEmpty
  | .obj kvs => kvs.isEmpty

/-- brain.py lines 309-369 minus the prompts: run the primary analysis when
the scrape was clean (`not scrape_error and scraped_data`), apply the
zombie check (a `.get` on a non-dict parse raises `AttributeError`, hence
`.error`), then run the backup deep search when `scrape_error or not
result`.  Returns the selected result and the number of backup-path
invocations. -/
def select_result (scrape_error had_data : Bool)
    (genPrimary genBackup : Except Unit String) : Except Unit (JVal × Nat) :=
  let phase1 : Except Unit (JVal × Bool) :=
    if !scrape_error && had_data then
      match genPrimary with
      | .error e => .error e
      | .ok t =>
        let temp := clean_and_parse_json t
        match temp with
        | .obj kvs =>
          if isZombie kvs then .ok (JVal.obj [], true)
          else .ok (temp, false)
        | _ => .error ()
    else .ok (JVal.obj [], scrape_error)
  match phase1 with
  | .error e => .error e
  | .ok (result1, err2) =>
    if err2 || jvalFalsy result1 then
      match genBackup with
      | .ok t => .ok (clean_and_parse_json t, 1)
      | .error e => .error e
    else .ok (result1, 0)

/-! ## Record construction and the history append
(brain.py lines 397-423) -/

/-- `sanitize_product_name` applied to an arbitrary `.get` result: Python
falsy values hit the `if not name` branch; a truthy list/dict passes the
`len` check (sentinel when > 40) and then raises `AttributeError` on
`.lower()`; a truthy number raises `TypeError` on `len()`. -/
def sanitize_product_name_j : JVal → Except Unit String
  | .str s => .ok (sanitize_product_name s)
  | .null => .ok "Unidentified Item"
  | .bool b => if b then .error () else .ok "Unidentified Item"
  | .num n => if n == 0 then .ok "Unidentified Item" else .error ()
  | .fnum m _ => if m == 0 then .ok "Unidentified Item" else .error ()
  | .arr xs =>
    if xs.isEmpty then .ok "Unidentified Item"
    else if xs.length > 40 then .ok "Unidentified Item"
    else .error ()
  | .obj kvs =>
    if kvs.isEmpty then .ok "Unidentified Item"
    else if kvs.length > 40 then .ok "Unidentified Item"
    else .error ()

/-- The history entry appended at brain.py lines 409-416. -/
structure HistRecord where
  source : String
  score : Int
  verdict : String
  standardized_verdict : String
  result : JVal
  image_url : Option String

/-- The session state touched by the link path: the history list and the
playback pointer. -/
structure AppState where
  history : List HistRecord
  playback : Option HistRecord

/-- brain.py lines 279-416 for the link path, up to (but excluding) the
append: hostile pre-check, retry loop, result selection, then the score /
verdict / name normalization that builds the record.  Any modelled
exception (`.error`) corresponds to reaching the `except` handler at
line 419, where the run stops without appending. -/
def link_record (target_url : String) (stub : Nat → Option ScrapedData)
    (genPrimary genBackup : Except Unit String) : Except Unit HistRecord :=
  let fallback_name := extract_name_from_url target_url
  let is_hostile :=
    strContainsSub (pyLower target_url) "aliexpress" || strContainsSub (pyLower target_url) "temu"
  let acq : AcqResult :=
    if is_hostile then ⟨true, none, "", 0, 0⟩ else acquire_loop stub
  let product_image_url : Option String :=
    if !acq.scrape_error && acq.data.isSome then (acq.data.map ScrapedData.ogImage).join
    else none
  match select_result acq.scrape_error acq.data.isSome genPrimary genBackup with
  | .error e => .error e
  | .ok (result, _) =>
    match result with
    | .obj kvs =>
      let score := extract_score_safely kvs
      let verdict := get_standardized_verdict score
      let ai_name := (lookupLast "product_name" kvs).getD (.str "Unknown")
      match sanitize_product_name_j ai_name with
      | .error e => .error e
      | .ok clean_name =>
        let final_name :=
          if clean_name = "Unidentified Item" ∧ fallback_name ≠ "Unidentified Item" then
            fallback_name
          else clean_name
        .ok ⟨final_name, score, verdict, verdict, result, product_image_url⟩
    | _ => .error ()

/-- The full link-path run over the session state: on success the record is
appended to the history (the only state mutation in the `try` block); on an
exception the handler at brain.py lines 419-423 reports the error and
stops, leaving the state untouched. -/
def run_link_analysis (s0 : AppState) (target_url : String)
    (stub : Nat → Option ScrapedData)
    (genPrimary genBackup : Except Unit String) : AppState × Option Unit :=
  match link_record target_url stub genPrimary genBackup with
  | .ok r => (⟨s0.history ++ [r], s0.playback⟩, none)
  | .error e => (s0, some e)

/-! ## Spec-modelled step-4 parser (for comparison with the source) -/

/-- `re.search(r'\{.*\}', s, re.DOTALL)` group 0: first `{` through the
last `}` after it. -/
def braceSpan (s : String) : Option String :=
  let cs := s.data
  match cs.findIdx? (· = '\x7b') with
  | none => none
  | some i =>
    match cs.reverse.findIdx? (· = '\x7d') with
    | none => none
    | some rj =>
      let j := cs.length - 1 - rj
      if i < j then some (String.mk ((cs.drop i).take (j + 1 - i))) else none

/-- Modelled from the spec (§4.1 steps 1-5): the recovery sequence the spec
describes, including the step-4 first-brace-to-last-brace span decode that
is absent from `clean_and_parse_json` in the source. -/
def clean_and_parse_json_spec (response_text : String) : JVal :=
  let text := select_text response_text
  match json_loads text with
  | some v => v
  | none =>
    match json_loads (scrub text) with
    | some v => v
    | none =>
      match (braceSpan text).bind json_loads with
      | some v => v
      | none => JVal.obj []

/-! ## Concrete probe inputs -/

/-- A 50-character response with no block phrase. -/
def fifty_char_content : String := String.mk (List.replicate 50 'a')

/-- A 10,000-character response containing "verify you are human" and none
of the configured indicators. -/
def ten_k_human_content : String :=
  "verify you are human" ++ String.mk (List.replicate 9980 'a')

/-- A long trapped response: contains "captcha", length 507 ≥ 500. -/
def trap_content : String := "captcha" ++ String.mk (List.replicate 500 'a')

/-- A stub collaborator that always returns the short blocked content. -/
def short_stub : Nat → Option ScrapedData := fun _ => some ⟨fifty_char_content, none⟩

/-- A stub collaborator that always returns trapped (long, block-phrase)
content. -/
def trap_stub : Nat → Option ScrapedData := fun _ => some ⟨trap_content, none⟩

/-- A nonempty prior session state, to exhibit preservation. -/
def demo_record : HistRecord :=
  ⟨"Prior Item", 80, "✅ GOOD: SAFE TO BUY", "✅ GOOD: SAFE TO BUY", JVal.obj [], none⟩

def demo_state : AppState := ⟨[demo_record], some demo_record⟩

/-- Whether a parsed value is a key-value structure (a JSON object). -/
def is_key_value_structure : JVal → Bool
  | .obj _ => true
  | _ => false

/-! ## Helper lemmas -/

theorem ne_empty_of_pos (s : String) (h : 0 < s.length) : s ≠ "" := by
  intro he
  subst he
  simp at h

theorem keepIfLong_some (cn cn' : String) (h : keepIfLong cn = some cn') :
    3 < cn'.length := by
  unfold keepIfLong at h
  split_ifs at h with hl
  injection h with h'
  subst h'
  exact hl

theorem slug_candidate_length (path cn : String)
    (h : slug_candidate path = some cn) : 3 < cn.length := by
  simp only [slug_candidate] at h
  split at h
  · exact keepIfLong_some _ cn h
  · cases h

theorem name_fallbacks_ne_empty (url : String) : name_fallbacks url ≠ "" := by
  unfold name_fallbacks
  split
  · next ds _ =>
    apply ne_empty_of_pos
    rw [String.length_append]
    have h16 : ("AliExpress Item " : String).length = 16 := rfl
    omega
  · split
    · next code _ =>
      apply ne_empty_of_pos
      rw [String.length_append]
      have h12 : ("Amazon Item " : String).length = 12 := rfl
      omega
    · decide

theorem extract_name_from_url_ne_empty (url : String) :
    extract_name_from_url url ≠ "" := by
  unfold extract_name_from_url
  cases hsc : slug_candidate (html_stripped_path url) with
  | some cn =>
    have h3 := slug_candidate_length _ cn hsc
    simpa [name_from_slug_or_fallback] using ne_empty_of_pos cn (by omega)
  | none =>
    simpa [name_from_slug_or_fallback] using name_fallbacks_ne_empty url

theorem sanitize_product_name_ne_empty (name : String) :
    sanitize_product_name name ≠ "" := by
  unfold sanitize_product_name
  split_ifs with h1 h2 h3
  · decide
  · decide
  · decide
  · exact h1

theorem resolve_name_ne_empty (ai_name url : String) :
    resolve_name ai_name url ≠ "" := by
  simp only [resolve_name]
  split_ifs with h
  · exact extract_name_from_url_ne_empty url
  · exact sanitize_product_name_ne_empty ai_name

theorem shorterThan_eq (n : Nat) (cs : List Char) :
    shorterThan n cs = decide (cs.length < n) := by
  induction n generalizing cs with
  | zero => simp [shorterThan]
  | succ n ih =>
    cases cs with
    | nil => simp [shorterThan]
    | cons c cs =>
      rw [shorterThan, ih]
      simp only [List.length_cons]
      by_cases h : cs.length < n
      · simp [h, Nat.succ_lt_succ h]
      · simp [h, fun hlt => h (Nat.lt_of_succ_lt_succ hlt)]

/-- The lowercased characters of the probe phrase. -/
def human_phrase_chars : List Char := "verify you are human".data

theorem listStartsWith_replicate_all (p : List Char) :
    ∀ n, listStartsWith p (List.replicate n 'a') = true → p.all (· == 'a') = true := by
  induction p with
  | nil => intro n _; rfl
  | cons c p ih =>
    intro n h
    cases n with
    | zero => simp [listStartsWith] at h
    | succ n =>
      rw [List.replicate_succ, listStartsWith] at h
      simp only [Bool.and_eq_true] at h
      simp [List.all_cons, h.1, ih n h.2]

theorem containsSub_replicate (p : List Char) (hp : p.all (· == 'a') = false) :
    ∀ n, containsSub p (List.replicate n 'a') = false := by
  intro n
  induction n with
  | zero =>
    cases p with
    | nil => simp at hp
    | cons c p => rfl
  | succ n ih =>
    have h1 : listStartsWith p (List.replicate (n + 1) 'a') = false := by
      cases hls : listStartsWith p (List.replicate (n + 1) 'a') with
      | false => rfl
      | true => rw [listStartsWith_replicate_all p (n + 1) hls] at hp; cases hp
    rw [List.replicate_succ] at h1 ⊢
    rw [containsSub, h1, ih]
    rfl

theorem containsSub_append_false (p ys : List Char) :
    ∀ xs : List Char, xs.tails.all (fun s => !listStartsWith p (s ++ ys)) = true →
      containsSub p ys = false → containsSub p (xs ++ ys) = false := by
  intro xs
  induction xs with
  | nil => intro _ hys; simpa using hys
  | cons x xs ih =>
    intro hwin hys
    have htails : (x :: xs).tails = (x :: xs) :: xs.tails := by
      simp [List.tails]
    rw [htails, List.all_cons, Bool.and_eq_true] at hwin
    have h1 : listStartsWith p ((x :: xs) ++ ys) = false := by
      cases hls : listStartsWith p ((x :: xs) ++ ys) with
      | false => rfl
      | true => rw [hls] at hwin; simp at hwin
    rw [List.cons_append, containsSub]
    rw [List.cons_append] at h1
    rw [h1, ih hwin.2 hys]
    rfl

theorem pyLower_ten_k_data :
    (pyLower ten_k_human_content).data = human_phrase_chars ++ List.replicate 9980 'a' := by
  show List.map Char.toLower
      (("verify you are human" : String).data ++ List.replicate 9980 'a')
    = human_phrase_chars ++ List.replicate 9980 'a'
  rw [List.map_append, List.map_replicate]
  rfl

theorem ten_k_not_blocked : is_blocked_content ten_k_human_content = false := by
  have hs : shorterThan 500 (human_phrase_chars ++ List.replicate 9980 'a') = false := by
    decide
  have h1 : containsSub "captcha".data (human_phrase_chars ++ List.replicate 9980 'a')
      = false :=
    containsSub_append_false _ _ _ (by decide) (containsSub_replicate _ (by decide) _)
  have h2 : containsSub "robot check".data (human_phrase_chars ++ List.replicate 9980 'a')
      = false :=
    containsSub_append_false _ _ _ (by decide) (containsSub_replicate _ (by decide) _)
  have h3 : containsSub "login".data (human_phrase_chars ++ List.replicate 9980 'a')
      = false :=
    containsSub_append_false _ _ _ (by decide) (containsSub_replicate _ (by decide) _)
  have h4 : containsSub "access denied".data (human_phrase_chars ++ List.replicate 9980 'a')
      = false :=
    containsSub_append_false _ _ _ (by decide) (containsSub_replicate _ (by decide) _)
  simp only [is_blocked_content, is_trap, block_indicators, strContainsSub,
    List.any_cons, List.any_nil, pyLower_ten_k_data, hs, h1, h2, h3, h4,
    Bool.or_self, Bool.or_false, Bool.false_or]

theorem shorterThan_data_eq (n : Nat) (s : String) :
    shorterThan n s.data = decide (s.length < n) :=
  shorterThan_eq n s.data

theorem select_result_noGen (b1 b2 : Bool) :
    select_result b1 b2 (.error ()) (.error ()) = .error () := by
  cases b1 <;> cases b2 <;> rfl

theorem select_result_zombie (p b : String) (kvs : List (String × JVal))
    (hp : clean_and_parse_json p = JVal.obj kvs) (hz : isZombie kvs = true) :
    select_result false true (.ok p) (.ok b) = .ok (clean_and_parse_json b, 1) := by
  simp [select_result, hp, hz]

theorem acquire_go_attempts_le (stub : Nat → Option ScrapedData) :
    ∀ (l : List Nat) (att sl : Nat) (err : Bool) (dat : Option ScrapedData) (cont : String),
      (acquire_go stub l att sl err dat cont).attempts ≤ att + l.length := by
  intro l
  induction l with
  | nil => intro att sl err dat cont; simp [acquire_go]
  | cons i rest ih =>
    intro att sl err dat cont
    simp only [acquire_go]
    cases hstub : stub i with
    | none =>
      have := ih (att + 1) sl err none cont
      simp only [List.length_cons]
      omega
    | some d =>
      simp only [List.length_cons]
      split_ifs with h1 h2
      · simp only []
        omega
      · simp only []
        omega
      · have := ih (att + 1) (sl + 1) err (some d) d.markdown
        omega

/-! ## Claim theorems -/

/-- C6 (confirmed): for every integer score in [0,100],
`get_standardized_verdict` returns the critical-warning label on 0-25, the
high-risk label on 26-45, the caution label on 46-65, the good label on
66-85 and the excellent label on 86-100 (upper bounds inclusive). -/
theorem verdict_bucketing (score : Int) :
    (0 ≤ score ∧ score ≤ 25 →
        get_standardized_verdict score = "⛔ CRITICAL WARNING: SCAM / FAKE") ∧
    (26 ≤ score ∧ score ≤ 45 →
        get_standardized_verdict score = "⚠️ HIGH RISK: LIKELY MISLEADING") ∧
    (46 ≤ score ∧ score ≤ 65 →
        get_standardized_verdict score = "⚠️ CAUTION: MEDIOCRE QUALITY") ∧
    (66 ≤ score ∧ score ≤ 85 →
        get_standardized_verdict score = "✅ GOOD: SAFE TO BUY") ∧
    (86 ≤ score ∧ score ≤ 100 →
        get_standardized_verdict score = "🌟 EXCELLENT: TOP TIER AUTHENTIC") := by
  refine ⟨?_, ?_, ?_, ?_, ?_⟩
  all_goals
    intro h
    unfold get_standardized_verdict
    split_ifs <;> first | rfl | omega

/-- Witness for C6 at the boundary scores 0, 25, 26, 45, 46, 65, 66, 85,
86, 100. -/
theorem verdict_bucketing_witness :
    get_standardized_verdict 0 = "⛔ CRITICAL WARNING: SCAM / FAKE" ∧
    get_standardized_verdict 25 = "⛔ CRITICAL WARNING: SCAM / FAKE" ∧
    get_standardized_verdict 26 = "⚠️ HIGH RISK: LIKELY MISLEADING" ∧
    get_standardized_verdict 45 = "⚠️ HIGH RISK: LIKELY MISLEADING" ∧
    get_standardized_verdict 46 = "⚠️ CAUTION: MEDIOCRE QUALITY" ∧
    get_standardized_verdict 65 = "⚠️ CAUTION: MEDIOCRE QUALITY" ∧
    get_standardized_verdict 66 = "✅ GOOD: SAFE TO BUY" ∧
    get_standardized_verdict 85 = "✅ GOOD: SAFE TO BUY" ∧
    get_standardized_verdict 86 = "🌟 EXCELLENT: TOP TIER AUTHENTIC" ∧
    get_standardized_verdict 100 = "🌟 EXCELLENT: TOP TIER AUTHENTIC" :=
  ⟨(verdict_bucketing 0).1 (by decide),
   (verdict_bucketing 25).1 (by decide),
   (verdict_bucketing 26).2.1 (by decide),
   (verdict_bucketing 45).2.1 (by decide),
   (verdict_bucketing 46).2.2.1 (by decide),
   (verdict_bucketing 65).2.2.1 (by decide),
   (verdict_bucketing 66).2.2.2.1 (by decide),
   (verdict_bucketing 85).2.2.2.1 (by decide),
   (verdict_bucketing 86).2.2.2.2 (by decide),
   (verdict_bucketing 100).2.2.2.2 (by decide)⟩

/-- C7 (confirmed): resolving the rejected name "Unknown" against the URL
`https://shop.example/item/123.html` yields the URL-derived fallback
"Item" (nonempty, not "Unknown"); resolving "Generic" against the bare URL
`https://shop.example/` yields the sentinel "Unidentified Item"; the
resolved name is never the empty string. -/
theorem name_resolution :
    resolve_name "Unknown" "https://shop.example/item/123.html" = "Item" ∧
    resolve_name "Unknown" "https://shop.example/item/123.html"
      = extract_name_from_url "https://shop.example/item/123.html" ∧
    resolve_name "Unknown" "https://shop.example/item/123.html" ≠ "Unknown" ∧
    resolve_name "Unknown" "https://shop.example/item/123.html" ≠ "" ∧
    resolve_name "Generic" "https://shop.example/" = "Unidentified Item" ∧
    ∀ ai_name url : String, resolve_name ai_name url ≠ "" :=
  ⟨rfl, rfl, by decide, by decide, rfl, resolve_name_ne_empty⟩

/-- C3 (confirmed): whenever the primary-path response parses to an object
whose zombie check fires (junk product name "Unknown"/"Generic" or
normalized score equal to the default 35), the orchestrator invokes the
backup deep search exactly once and its parsed output is the selected
result. -/
theorem zombie_fallback_triggering (p b : String) (kvs : List (String × JVal))
    (hp : clean_and_parse_json p = JVal.obj kvs) (hz : isZombie kvs = true) :
    select_result false true (.ok p) (.ok b) = .ok (clean_and_parse_json b, 1) :=
  select_result_zombie p b kvs hp hz

/-- Witness for C3: a primary response naming the junk placeholder
"Generic" (with a non-default score) triggers exactly one backup call whose
parse is the final result. -/
theorem zombie_fallback_triggering_witness :
    clean_and_parse_json "\x7b\"product_name\": \"Generic\", \"score\": 80\x7d"
      = JVal.obj [("product_name", JVal.str "Generic"), ("score", JVal.num 80)] ∧
    isZombie [("product_name", JVal.str "Generic"), ("score", JVal.num 80)] = true ∧
    select_result false true
        (.ok "\x7b\"product_name\": \"Generic\", \"score\": 80\x7d")
        (.ok "\x7b\"score\": 90\x7d")
      = .ok (clean_and_parse_json "\x7b\"score\": 90\x7d", 1) :=
  ⟨rfl, rfl,
   zombie_fallback_triggering
     "\x7b\"product_name\": \"Generic\", \"score\": 80\x7d"
     "\x7b\"score\": 90\x7d"
     [("product_name", JVal.str "Generic"), ("score", JVal.num 80)] rfl rfl⟩

/-- C10 (confirmed): the normalized score equals 35 for every raw integer
score in 33-37 and for an absent, null, or digit-free-string score field;
whenever the primary parse is an object with normalized score 35 the
primary result is discarded and the backup deep search output is selected
(one backup call), regardless of the product name. -/
theorem zombie_score_window :
    (∀ (fields : List (String × JVal)) (n : Int),
        lookupLast "score" fields = some (JVal.num n) → 33 ≤ n → n ≤ 37 →
          extract_score_safely fields = 35) ∧
    (∀ fields, lookupLast "score" fields = none → extract_score_safely fields = 35) ∧
    (∀ fields, lookupLast "score" fields = some JVal.null → extract_score_safely fields = 35) ∧
    (∀ fields s, lookupLast "score" fields = some (JVal.str s) → firstDigitRun s = none →
        extract_score_safely fields = 35) ∧
    (∀ (p b : String) (kvs : List (String × JVal)),
        clean_and_parse_json p = JVal.obj kvs → extract_score_safely kvs = 35 →
          select_result false true (.ok p) (.ok b) = .ok (clean_and_parse_json b, 1)) := by
  refine ⟨?_, ?_, ?_, ?_, ?_⟩
  · intro fields n h h1 h2
    have hr : raw_score fields = n := by simp [raw_score, h]
    simp only [extract_score_safely, hr]
    interval_cases n <;> decide
  · intro fields h
    have hr : raw_score fields = 35 := by simp [raw_score, h]
    simp only [extract_score_safely, hr]
    decide
  · intro fields h
    have hr : raw_score fields = 35 := by simp [raw_score, h]
    simp only [extract_score_safely, hr]
    decide
  · intro fields str h hd
    have hr : raw_score fields = 35 := by simp [raw_score, h, hd]
    simp only [extract_score_safely, hr]
    decide
  · intro p b kvs hp hs
    exact select_result_zombie p b kvs hp (by simp [isZombie, hs])

/-- Witness for C10: a perfectly valid product name with raw score 34
normalizes to 35, and such a primary response is discarded in favour of one
backup call. -/
theorem zombie_score_window_witness :
    extract_score_safely [("product_name", JVal.str "Sony WH1000"), ("score", JVal.num 34)]
      = 35 ∧
    select_result false true
        (.ok "\x7b\"product_name\": \"Sony WH1000\", \"score\": 34\x7d")
        (.ok "\x7b\"score\": 60\x7d")
      = .ok (clean_and_parse_json "\x7b\"score\": 60\x7d", 1) :=
  ⟨zombie_score_window.1
     [("product_name", JVal.str "Sony WH1000"), ("score", JVal.num 34)] 34 rfl
     (by decide) (by decide),
   zombie_score_window.2.2.2.2
     "\x7b\"product_name\": \"Sony WH1000\", \"score\": 34\x7d"
     "\x7b\"score\": 60\x7d"
     [("product_name", JVal.str "Sony WH1000"), ("score", JVal.num 34)] rfl rfl⟩

/-- C1 counterexample: a 10,000-character response that contains the phrase
"verify you are human" and none of the configured indicators is classified
as NOT blocked, contradicting the claim that this phrase is among the
block indicators. -/
theorem blocking_classification_counterexample :
    is_blocked_content ten_k_human_content = false ∧
    ten_k_human_content.length = 10000 ∧
    strContainsSub (pyLower ten_k_human_content) "verify you are human" = true := by
  refine ⟨ten_k_not_blocked, ?_, by decide⟩
  show ("verify you are human" ++ String.mk (List.replicate 9980 'a')).length = 10000
  rw [String.length_append]
  have h1 : ("verify you are human" : String).length = 20 := rfl
  have h2 : (String.mk (List.replicate 9980 'a')).length
      = (List.replicate 9980 'a').length := rfl
  rw [h1, h2, List.length_replicate]

/-- C1 (corrected): a scrape response is classified as blocked exactly when
its lowercased text is shorter than 500 characters or contains one of the
configured indicators "captcha", "robot check", "login", "access denied"
(case-insensitive via lowercasing); "verify you are human" is not among the
indicators, so the 50-character probe is blocked (too short) while the
10,000-character probe containing that phrase is not blocked. -/
theorem blocking_classification :
    (∀ content : String,
        is_blocked_content content = true ↔
          ((pyLower content).length < 500 ∨
            ∃ p ∈ block_indicators, strContainsSub (pyLower content) p = true)) ∧
    "verify you are human" ∉ block_indicators ∧
    is_blocked_content fifty_char_content = true ∧
    is_blocked_content ten_k_human_content = false := by
  refine ⟨?_, by decide, by decide, ten_k_not_blocked⟩
  intro content
  simp [is_blocked_content, is_trap, List.any_eq_true, shorterThan_data_eq]

/-- Witness for C1: the classification theorem applied to the 50-character
probe. -/
theorem blocking_classification_witness :
    (pyLower fifty_char_content).length < 500 ∨
      ∃ p ∈ block_indicators, strContainsSub (pyLower fifty_char_content) p = true :=
  (blocking_classification.1 fifty_char_content).mp (by decide)

/-- C5 counterexample: a stub that always returns blocked (50-character)
content makes the acquirer stop after exactly ONE attempt, not the claimed
three: the too-short branch breaks out of the loop immediately. -/
theorem bounded_retries_counterexample :
    is_blocked_content fifty_char_content = true ∧
    (acquire_loop short_stub).attempts = 1 ∧
    (acquire_loop short_stub).attempts ≠ 3 ∧
    (acquire_loop short_stub).scrape_error = true :=
  ⟨by decide, by decide, by decide, by decide⟩

/-- C5 (corrected): with a stub that always returns trap-phrase-blocked
content (length at least 500 and containing a block indicator) the acquirer
performs exactly MAX_RETRIES = 3 attempts, sleeping once after each blocked
attempt, and ends with the error flag set; with content blocked only by the
too-short check it stops after the first attempt; in all cases at most
MAX_RETRIES attempts are made, so the loop terminates. -/
theorem bounded_retries :
    (∀ stub : Nat → Option ScrapedData,
        (∀ i, ∃ d, stub i = some d ∧ ¬(pyLower d.markdown).length < 500 ∧
            is_trap (pyLower d.markdown) = true) →
          (acquire_loop stub).scrape_error = true ∧ (acquire_loop stub).attempts = 3 ∧
            (acquire_loop stub).sleeps = 3) ∧
    (∀ stub : Nat → Option ScrapedData, (acquire_loop stub).attempts ≤ MAX_RETRIES) := by
  constructor
  · intro stub h
    obtain ⟨d0, e0, l0, t0⟩ := h 0
    obtain ⟨d1, e1, l1, t1⟩ := h 1
    obtain ⟨d2, e2, l2, t2⟩ := h 2
    have l0' : shorterThan 500 (pyLower d0.markdown).data = false := by
      rw [shorterThan_data_eq]; exact decide_eq_false l0
    have l1' : shorterThan 500 (pyLower d1.markdown).data = false := by
      rw [shorterThan_data_eq]; exact decide_eq_false l1
    have l2' : shorterThan 500 (pyLower d2.markdown).data = false := by
      rw [shorterThan_data_eq]; exact decide_eq_false l2
    have hrange : List.range MAX_RETRIES = [0, 1, 2] := rfl
    have hrun : acquire_loop stub = ⟨true, some d2, d2.markdown, 3, 3⟩ := by
      simp [acquire_loop, hrange, acquire_go, e0, l0', t0, e1, l1', t1, e2, l2', t2]
    rw [hrun]
    exact ⟨rfl, rfl, rfl⟩
  · intro stub
    have h := acquire_go_attempts_le stub (List.range MAX_RETRIES) 0 0 true none ""
    simpa [acquire_loop] using h

/-- Witness for C5: the trap stub (content "captcha" + 500 filler
characters) makes the loop run all three attempts. -/
theorem bounded_retries_witness :
    (acquire_loop trap_stub).scrape_error = true ∧ (acquire_loop trap_stub).attempts = 3 ∧
      (acquire_loop trap_stub).sleeps = 3 :=
  bounded_retries.1 trap_stub (fun _ => ⟨⟨trap_content, none⟩, rfl, by decide, by decide⟩)

/-- C2 counterexample: on the input `xx{"a":1}yy` the fenced-block
extraction and both decode attempts fail, the first-brace-to-last-brace
span decodes to the object `a = 1` per the spec-modelled step 4, yet the
source parser returns the empty object: the code has no step 4. -/
theorem parser_recovery_steps_counterexample :
    json_loads (select_text "xx\x7b\"a\":1\x7dyy") = none ∧
    json_loads (scrub (select_text "xx\x7b\"a\":1\x7dyy")) = none ∧
    (braceSpan (select_text "xx\x7b\"a\":1\x7dyy")).bind json_loads
      = some (JVal.obj [("a", JVal.num 1)]) ∧
    clean_and_parse_json "xx\x7b\"a\":1\x7dyy" = JVal.obj [] ∧
    clean_and_parse_json_spec "xx\x7b\"a\":1\x7dyy" = JVal.obj [("a", JVal.num 1)] :=
  ⟨rfl, rfl, rfl, rfl, rfl⟩

/-- C2 (corrected): for every input on which fenced-block extraction and
both tolerant decode attempts (raw and control-character-scrubbed) fail,
`clean_and_parse_json` returns the empty object immediately; there is no
first-brace-to-last-brace recovery step. -/
theorem parser_recovery_steps (s : String)
    (h1 : json_loads (select_text s) = none)
    (h2 : json_loads (scrub (select_text s)) = none) :
    clean_and_parse_json s = JVal.obj [] := by
  simp only [clean_and_parse_json, h1, h2]

/-- Witness for C2 at an input where every decode attempt fails. -/
theorem parser_recovery_steps_witness :
    clean_and_parse_json "totally not json" = JVal.obj [] :=
  parser_recovery_steps "totally not json" rfl rfl

/-- C8 counterexample: valid non-object JSON is returned as-is, so parse
does not always return a key-value structure: `[1, 2]` parses to a JSON
array. -/
theorem parser_totality_counterexample :
    clean_and_parse_json "[1, 2]" = JVal.arr [JVal.num 1, JVal.num 2] ∧
    is_key_value_structure (clean_and_parse_json "[1, 2]") = false :=
  ⟨rfl, rfl⟩

/-- C8 (corrected): `clean_and_parse_json` is total (the Python body
catches the decode errors): it returns the empty object when every decode
attempt fails and otherwise the first successful decode's value verbatim,
which need not be a key-value structure. -/
theorem parser_totality (s : String) :
    (json_loads (select_text s) = none → json_loads (scrub (select_text s)) = none →
        clean_and_parse_json s = JVal.obj []) ∧
    (∀ v, json_loads (select_text s) = some v → clean_and_parse_json s = v) ∧
    (∀ v, json_loads (select_text s) = none → json_loads (scrub (select_text s)) = some v →
        clean_and_parse_json s = v) := by
  refine ⟨fun h1 h2 => ?_, fun v hv => ?_, fun v h1 hv => ?_⟩
  · simp only [clean_and_parse_json, h1, h2]
  · simp only [clean_and_parse_json, hv]
  · simp only [clean_and_parse_json, h1, hv]

/-- Witness for C8: an undecodable input yields the empty object and a
JSON-array input is returned verbatim. -/
theorem parser_totality_witness :
    clean_and_parse_json "garbage input" = JVal.obj [] ∧
    clean_and_parse_json "[1, 2]" = JVal.arr [JVal.num 1, JVal.num 2] :=
  ⟨(parser_totality "garbage input").1 rfl rfl,
   (parser_totality "[1, 2]").2.1 (JVal.arr [JVal.num 1, JVal.num 2]) rfl⟩

/-- C9 (confirmed): whenever the link-path run fails (a modelled
collaborator exception reaches the top-level handler), no history record is
created and the session state (history and playback) is exactly as before;
in particular a run whose reasoning calls both raise fails with the state
unchanged. -/
theorem failure_atomicity :
    (∀ (s0 : AppState) (url : String) (stub : Nat → Option ScrapedData)
        (gp gb : Except Unit String) (e : Unit),
        (run_link_analysis s0 url stub gp gb).2 = some e →
          (run_link_analysis s0 url stub gp gb).1 = s0) ∧
    (∀ (s0 : AppState) (url : String) (stub : Nat → Option ScrapedData),
        run_link_analysis s0 url stub (.error ()) (.error ()) = (s0, some ())) := by
  constructor
  · intro s0 url stub gp gb e he
    cases h : link_record url stub gp gb with
    | ok r => simp [run_link_analysis, h] at he
    | error e' => simp [run_link_analysis, h]
  · intro s0 url stub
    have hl : link_record url stub (.error ()) (.error ()) = .error () := by
      simp only [link_record, select_result_noGen]
    simp [run_link_analysis, hl]

/-- Witness for C9: a run with raising collaborators over a nonempty prior
state fails and leaves the state untouched. -/
theorem failure_atomicity_witness :
    run_link_analysis demo_state "https://shop.example/widget-pro-max" (fun _ => none)
        (.error ()) (.error ()) = (demo_state, some ()) ∧
    (run_link_analysis demo_state "https://shop.example/widget-pro-max" (fun _ => none)
        (.error ()) (.error ())).1 = demo_state :=
  ⟨failure_atomicity.2 demo_state "https://shop.example/widget-pro-max" (fun _ => none),
   failure_atomicity.1 demo_state "https://shop.example/widget-pro-max" (fun _ => none)
     (.error ()) (.error ()) () rfl⟩

end Veritas
